import Mathlib

/-!
Shallow embedding of the mombasaStays backend (src/server.js): a thin HTTP API
over a geospatial relational store.  Request handlers are modelled as pure
functions over an explicit database value; SQL query semantics (filter, join,
aggregate, sort) are modelled directly on Lean lists.  The geodesic distance
computation of the store (PostGIS `ST_Distance` on geography values) is taken
as an abstract parameter; `ST_DWithin(a, b, r)` is modelled as `dist a b ≤ r`,
the identical computation, matching PostGIS semantics.
-/

namespace MombasaStays

/-- A JavaScript-style value as delivered by an `express.json` request body or
a query parameter.  Only the shapes that can reach the handlers are modelled. -/
inductive JSVal where
  | undef : JSVal
  | null : JSVal
  | num : ℚ → JSVal
  | str : String → JSVal
  deriving DecidableEq, Repr

/-- JavaScript truthiness, as tested by `!x`: `undefined`, `null`, `0` and the
empty string are falsy; every other modelled value is truthy. -/
def JSVal.truthy : JSVal → Bool
  | .undef => false
  | .null => false
  | .num q => decide (q ≠ 0)
  | .str s => decide (s ≠ "")

/-- Numeric reading of a bound SQL parameter (used after validation). -/
def JSVal.toQ : JSVal → ℚ
  | .num q => q
  | _ => 0

/-- Identifier reading of a bound SQL parameter (used after validation). -/
def JSVal.toId : JSVal → Nat
  | .num q => q.num.toNat
  | _ => 0

/-- String reading of a bound SQL parameter (used after validation). -/
def JSVal.toStr : JSVal → String
  | .str s => s
  | _ => ""

/-- A row of the `listings` table.  The geography column `location` is a point
stored as `(locX, locY)`; per `ST_MakePoint(x, y)` the X coordinate is the
longitude and the Y coordinate is the latitude. -/
structure Listing where
  id : Nat
  host_id : Nat
  title : String
  description : String
  price_kes : ℚ
  locX : ℚ
  locY : ℚ
  location_name : String
  is_active : Bool
  is_featured : Bool
  deriving DecidableEq, Repr

/-- A row of the `listing_images` table. -/
structure ListingImage where
  id : Nat
  listing_id : Nat
  image_url : String
  deriving DecidableEq, Repr

/-- A row of the `users` table (hosts). -/
structure User where
  id : Nat
  name : String
  phone : String
  whatsapp : String
  deriving DecidableEq, Repr

/-- The store state visible to this service. -/
structure DB where
  listings : List Listing
  listing_images : List ListingImage
  users : List User
  deriving DecidableEq, Repr

/-- The `{id, image_url}` objects built by `json_build_object` in the image
subqueries and by the `/api/listings/:id/images` query. -/
structure ImgRec where
  id : Nat
  image_url : String
  deriving DecidableEq, Repr

/-- SQL `json_agg` over a subquery: aggregates the rows into an array, but
yields NULL (`none`) on an empty row set rather than an empty array. -/
def jsonAgg {α : Type} (l : List α) : Option (List α) :=
  if l.isEmpty then none else some l

/-- The correlated subquery
`SELECT ... FROM listing_images li WHERE li.listing_id = <lid>`,
with each row shaped by `json_build_object('id', li.id, 'image_url', li.image_url)`. -/
def listingImagesOf (db : DB) (lid : Nat) : List ImgRec :=
  (db.listing_images.filter (fun li => li.listing_id == lid)).map
    (fun li => { id := li.id, image_url := li.image_url })

/-- The abstract geodesic distance of the store, in meters: both `ST_Distance`
and the `ST_DWithin` containment test use this same computation. -/
def GeoDist : Type := ℚ × ℚ → ℚ × ℚ → ℚ

/-- A result row of the `GET /api/listings/nearby` query. -/
structure NearbyRow where
  id : Nat
  host_id : Nat
  title : String
  description : String
  price_kes : ℚ
  location_name : String
  is_featured : Bool
  longitude : ℚ
  latitude : ℚ
  distance : ℚ
  images : Option (List ImgRec)
  deriving DecidableEq, Repr

/-- The SELECT list of the nearby query applied to one listing: the query
center is `ST_SetSRID(ST_MakePoint($1, $2), 4326)` with `$1` bound to `lng`
and `$2` bound to `lat`; `ST_X` is selected as `longitude` and `ST_Y` as
`latitude`; the images subquery carries no COALESCE. -/
def nearbyRowOf (dist : GeoDist) (lng lat : ℚ) (db : DB) (l : Listing) : NearbyRow :=
  { id := l.id
    host_id := l.host_id
    title := l.title
    description := l.description
    price_kes := l.price_kes
    location_name := l.location_name
    is_featured := l.is_featured
    longitude := l.locX
    latitude := l.locY
    distance := dist (l.locX, l.locY) (lng, lat)
    images := jsonAgg (listingImagesOf db l.id) }

/-- The `ORDER BY l.is_featured DESC, distance ASC` sort key of the nearby
query, as a boolean total preorder. -/
def nearbyLE (a b : NearbyRow) : Bool :=
  (a.is_featured && !b.is_featured) ||
    ((a.is_featured == b.is_featured) && decide (a.distance ≤ b.distance))

/-- The query-parameter triple of `GET /api/listings/nearby`; a missing
parameter is `none`. -/
structure NearbyReq where
  lat : Option ℚ
  lng : Option ℚ
  radius : Option ℚ
  deriving DecidableEq, Repr

/-- Response of `GET /api/listings/nearby`; `queried` records whether the
handler executed a query against the store. -/
structure NearbyRes where
  status : Nat
  rows : List NearbyRow
  queried : Bool
  deriving DecidableEq, Repr

/-- The `GET /api/listings/nearby` handler: requires `lat` and `lng` (400
otherwise, before any store access), defaults `radius` to 5000 meters, keeps
the active listings within the radius of the center, shapes each row and
sorts by featured-first then ascending distance. -/
def nearbyHandler (dist : GeoDist) (req : NearbyReq) (db : DB) : NearbyRes :=
  match req.lat, req.lng with
  | some lat, some lng =>
      let radius := req.radius.getD 5000
      let hits := db.listings.filter
        (fun l => l.is_active && decide (dist (l.locX, l.locY) (lng, lat) ≤ radius))
      { status := 200
        rows := (hits.map (nearbyRowOf dist lng lat db)).mergeSort nearbyLE
        queried := true }
  | _, _ => { status := 400, rows := [], queried := false }

/-- A result row of the `GET /api/listings/:id` query: all listing columns,
the decoded point, the joined host contact columns and the COALESCEd image
array.  NOTE (faithful to src/server.js): this query selects
`ST_X(l.location::geometry) AS latitude` and
`ST_Y(l.location::geometry) AS longitude` - the stored X (longitude) comes
back labelled `latitude` and vice versa. -/
structure ListingDetail where
  id : Nat
  host_id : Nat
  title : String
  description : String
  price_kes : ℚ
  location_name : String
  is_active : Bool
  is_featured : Bool
  latitude : ℚ
  longitude : ℚ
  host_name : String
  host_phone : String
  host_whatsapp : String
  images : List ImgRec
  deriving DecidableEq, Repr

/-- The row set of the single-listing query: `listings l JOIN users u ON
l.host_id = u.id WHERE l.id = $1`, with the swapped coordinate labels and the
images subquery COALESCEd to the empty array. -/
def getListingRows (db : DB) (lid : Nat) : List ListingDetail :=
  (db.listings.filter (fun l => l.id == lid)).flatMap (fun l =>
    (db.users.filter (fun u => u.id == l.host_id)).map (fun u =>
      { id := l.id
        host_id := l.host_id
        title := l.title
        description := l.description
        price_kes := l.price_kes
        location_name := l.location_name
        is_active := l.is_active
        is_featured := l.is_featured
        latitude := l.locX
        longitude := l.locY
        host_name := u.name
        host_phone := u.phone
        host_whatsapp := u.whatsapp
        images := (jsonAgg (listingImagesOf db l.id)).getD [] }))

/-- Response of `GET /api/listings/:id`. -/
structure GetRes where
  status : Nat
  body : Option ListingDetail
  deriving DecidableEq, Repr

/-- The `GET /api/listings/:id` handler: 404 with no record when the query
returns no row, otherwise 200 with the first row. -/
def getListingHandler (db : DB) (lid : Nat) : GetRes :=
  match getListingRows db lid with
  | [] => { status := 404, body := none }
  | r :: _ => { status := 200, body := some r }

/-- The `ORDER BY id` sort key of the images query. -/
def imgLE (a b : ImgRec) : Bool :=
  decide (a.id ≤ b.id)

/-- Response of `GET /api/listings/:id/images`. -/
structure ImagesRes where
  status : Nat
  rows : List ImgRec
  deriving DecidableEq, Repr

/-- The `GET /api/listings/:id/images` handler: the image rows of the listing
ordered by ascending id; an empty set is answered with 200 and an empty
array. -/
def imagesHandler (db : DB) (lid : Nat) : ImagesRes :=
  { status := 200
    rows := ((db.listing_images.filter (fun li => li.listing_id == lid)).map
      (fun li => { id := li.id, image_url := li.image_url })).mergeSort imgLE }

/-- The body of `POST /api/admin/listings`; each field is a JavaScript value
(`undef` when absent from the body). -/
structure AdminBody where
  host_id : JSVal
  title : JSVal
  description : JSVal
  price_kes : JSVal
  latitude : JSVal
  longitude : JSVal
  location_name : JSVal
  deriving DecidableEq, Repr

/-- Response of `POST /api/admin/listings`, carrying the store state after the
request (unchanged on every non-201 path) and the created row if any. -/
structure CreateRes where
  status : Nat
  db : DB
  created : Option Listing
  deriving DecidableEq, Repr

/-- Modelled from the spec: the store assigns the new row's identity (the
schema is external to this repository).  A fresh id strictly larger than every
existing one. -/
def freshId (db : DB) : Nat :=
  (db.listings.map Listing.id).foldr max 0 + 1

/-- The INSERT of the admin-creation handler: the geography point is built by
`ST_SetSRID(ST_MakePoint($5, $6), 4326)` with `$5` bound to `longitude` and
`$6` bound to `latitude` (so `locX` is the longitude and `locY` the latitude).
Modelled from the spec: the database-assigned defaults of the returned row
(`is_active` true, `is_featured` false) come from the external schema. -/
def insertListing (db : DB) (b : AdminBody) : DB × Listing :=
  let l : Listing :=
    { id := freshId db
      host_id := b.host_id.toId
      title := b.title.toStr
      description := b.description.toStr
      price_kes := b.price_kes.toQ
      locX := b.longitude.toQ
      locY := b.latitude.toQ
      location_name := b.location_name.toStr
      is_active := true
      is_featured := false }
  ({ db with listings := db.listings ++ [l] }, l)

/-- The `POST /api/admin/listings` handler: first the admin-key check
(`key !== process.env.ADMIN_KEY` gives 401), then the truthiness check on the
five required fields (400), then the INSERT (201 with the created row). -/
def adminCreateHandler (envKey : Option String) (headerKey : Option String)
    (b : AdminBody) (db : DB) : CreateRes :=
  if headerKey ≠ envKey then
    { status := 401, db := db, created := none }
  else if !b.host_id.truthy || !b.title.truthy || !b.price_kes.truthy
      || !b.latitude.truthy || !b.longitude.truthy then
    { status := 400, db := db, created := none }
  else
    let p := insertListing db b
    { status := 201, db := p.1, created := some p.2 }

/-! ### Helper lemmas -/

theorem nearbyLE_trans (a b c : NearbyRow) (hab : nearbyLE a b = true)
    (hbc : nearbyLE b c = true) : nearbyLE a c = true := by
  cases ha : a.is_featured <;> cases hb : b.is_featured <;> cases hc : c.is_featured <;>
    simp_all [nearbyLE] <;> exact le_trans hab hbc

theorem nearbyLE_total (a b : NearbyRow) : (nearbyLE a b || nearbyLE b a) = true := by
  cases ha : a.is_featured <;> cases hb : b.is_featured <;> simp_all [nearbyLE] <;>
    exact le_total a.distance b.distance

theorem nearbyLE_imp (a b : NearbyRow) (h : nearbyLE a b = true) :
    (b.is_featured = true → a.is_featured = true) ∧
      (a.is_featured = b.is_featured → a.distance ≤ b.distance) := by
  cases ha : a.is_featured <;> cases hb : b.is_featured <;> simp_all [nearbyLE]

theorem imgLE_trans (a b c : ImgRec) (hab : imgLE a b = true)
    (hbc : imgLE b c = true) : imgLE a c = true := by
  simp only [imgLE, decide_eq_true_eq] at *
  omega

theorem imgLE_total (a b : ImgRec) : (imgLE a b || imgLE b a) = true := by
  simp only [imgLE, Bool.or_eq_true, decide_eq_true_eq]
  omega

theorem nearby_rows_eq (dist : GeoDist) (lat lng : ℚ) (rd : Option ℚ) (db : DB) :
    (nearbyHandler dist ⟨some lat, some lng, rd⟩ db).rows =
      ((db.listings.filter (fun l => l.is_active &&
          decide (dist (l.locX, l.locY) (lng, lat) ≤ rd.getD 5000))).map
        (nearbyRowOf dist lng lat db)).mergeSort nearbyLE := rfl

theorem mem_nearby_rows (dist : GeoDist) (lat lng : ℚ) (rd : Option ℚ) (db : DB)
    (l : Listing) (hl : l ∈ db.listings) (hact : l.is_active = true)
    (hdist : dist (l.locX, l.locY) (lng, lat) ≤ rd.getD 5000) :
    nearbyRowOf dist lng lat db l ∈ (nearbyHandler dist ⟨some lat, some lng, rd⟩ db).rows := by
  rw [nearby_rows_eq, List.mem_mergeSort]
  exact List.mem_map_of_mem _ (List.mem_filter.2 ⟨hl, by simp [hact, hdist]⟩)

/-! ### Concrete instances used by the witnesses -/

/-- A concrete geodesic-distance instance for witnesses: 0 meters between a
point and itself, 1000 meters between distinct points. -/
def wDist : GeoDist := fun p q => if p = q then 0 else 1000

def wListing : Listing :=
  { id := 1, host_id := 7, title := "Beach flat", description := "sea view"
    price_kes := 3500, locX := 0, locY := 0, location_name := "Nyali"
    is_active := true, is_featured := true }

def wUser : User := { id := 7, name := "Asha", phone := "0700", whatsapp := "0700" }

def wImg : ListingImage := { id := 4, listing_id := 1, image_url := "a.jpg" }

def wDb : DB := { listings := [wListing], listing_images := [wImg], users := [wUser] }

def wReq : NearbyReq := { lat := some 0, lng := some 0, radius := none }

def wBody : AdminBody :=
  { host_id := .num 7, title := .str "Beach flat", description := .str "sea view"
    price_kes := .num 3500, latitude := .num 1, longitude := .num 2
    location_name := .str "Nyali" }

/-! ### Claim theorems -/

/-- Claim C1: for every proximity-search request with lat and lng present
(radius defaulting to 5000 meters when unspecified), every row of the
returned array comes from an active listing, its distance from the query
center is at most the radius, and no active listing within the radius is
omitted. -/
theorem nearby_active_within_radius (dist : GeoDist) (req : NearbyReq) (db : DB)
    (lat lng : ℚ) (hlat : req.lat = some lat) (hlng : req.lng = some lng) :
    (nearbyHandler dist req db).status = 200 ∧
    (∀ r ∈ (nearbyHandler dist req db).rows,
      r.distance ≤ req.radius.getD 5000 ∧
      ∃ l ∈ db.listings, l.is_active = true ∧
        dist (l.locX, l.locY) (lng, lat) ≤ req.radius.getD 5000 ∧
        r = nearbyRowOf dist lng lat db l) ∧
    (∀ l ∈ db.listings, l.is_active = true →
      dist (l.locX, l.locY) (lng, lat) ≤ req.radius.getD 5000 →
      nearbyRowOf dist lng lat db l ∈ (nearbyHandler dist req db).rows) := by
  obtain ⟨lt, lg, rd⟩ := req
  simp only [NearbyReq.lat] at hlat
  simp only [NearbyReq.lng] at hlng
  subst hlat hlng
  refine ⟨rfl, ?_, ?_⟩
  · intro r hr
    rw [nearby_rows_eq, List.mem_mergeSort] at hr
    obtain ⟨l, hl, rfl⟩ := List.mem_map.1 hr
    rw [List.mem_filter] at hl
    obtain ⟨hmem, hcond⟩ := hl
    simp only [Bool.and_eq_true, decide_eq_true_eq] at hcond
    exact ⟨hcond.2, l, hmem, hcond.1, hcond.2, rfl⟩
  · intro l hmem hact hdist
    exact mem_nearby_rows dist lat lng rd db l hmem hact hdist

theorem nearby_active_within_radius_witness :
    wReq.lat = some 0 ∧ wReq.lng = some 0 ∧
    ((nearbyHandler wDist wReq wDb).status = 200 ∧
     (∀ r ∈ (nearbyHandler wDist wReq wDb).rows,
       r.distance ≤ wReq.radius.getD 5000 ∧
       ∃ l ∈ wDb.listings, l.is_active = true ∧
         wDist (l.locX, l.locY) (0, 0) ≤ wReq.radius.getD 5000 ∧
         r = nearbyRowOf wDist 0 0 wDb l) ∧
     (∀ l ∈ wDb.listings, l.is_active = true →
       wDist (l.locX, l.locY) (0, 0) ≤ wReq.radius.getD 5000 →
       nearbyRowOf wDist 0 0 wDb l ∈ (nearbyHandler wDist wReq wDb).rows)) :=
  ⟨rfl, rfl, nearby_active_within_radius wDist wReq wDb 0 0 rfl rfl⟩

/-- Claim C2: every result sequence of the proximity search lists all
featured entries before all non-featured entries, and within each of the two
groups the distance values are non-decreasing. -/
theorem nearby_sorted_featured_then_distance (dist : GeoDist) (req : NearbyReq) (db : DB) :
    List.Pairwise (fun a b : NearbyRow =>
      (b.is_featured = true → a.is_featured = true) ∧
        (a.is_featured = b.is_featured → a.distance ≤ b.distance))
      (nearbyHandler dist req db).rows := by
  obtain ⟨lt, lg, rd⟩ := req
  cases lt with
  | none => cases lg <;> exact List.Pairwise.nil
  | some lat =>
    cases lg with
    | none => exact List.Pairwise.nil
    | some lng =>
      rw [nearby_rows_eq]
      exact (List.sorted_mergeSort nearbyLE_trans nearbyLE_total _).imp
        (fun h => nearbyLE_imp _ _ h)

/-- Claim C4: an admin-creation request whose x-admin-key header is absent or
differs from the configured secret is answered 401, before any field
validation and regardless of the body contents, and no row is inserted (the
store is returned unchanged). -/
theorem admin_create_unauthorized (secret : String) (headerKey : Option String)
    (b : AdminBody) (db : DB) (h : headerKey ≠ some secret) :
    adminCreateHandler (some secret) headerKey b db =
      { status := 401, db := db, created := none } := by
  unfold adminCreateHandler
  rw [if_pos h]

theorem admin_create_unauthorized_witness :
    ((none : Option String) ≠ some "k") ∧
    adminCreateHandler (some "k") none wBody wDb =
      { status := 401, db := wDb, created := none } :=
  ⟨by decide, admin_create_unauthorized "k" none wBody wDb (by decide)⟩

/-- Claim C5: a proximity-search request missing the lat parameter or
missing the lng parameter is answered 400 and no query is executed against
the store. -/
theorem nearby_missing_param (dist : GeoDist) (req : NearbyReq) (db : DB)
    (h : req.lat = none ∨ req.lng = none) :
    nearbyHandler dist req db = { status := 400, rows := [], queried := false } := by
  obtain ⟨lt, lg, rd⟩ := req
  rcases h with h | h
  · simp only [NearbyReq.lat] at h
    subst h
    cases lg <;> rfl
  · simp only [NearbyReq.lng] at h
    subst h
    cases lt <;> rfl

theorem nearby_missing_param_witness :
    ((⟨none, some 1, none⟩ : NearbyReq).lat = none ∨
      (⟨none, some 1, none⟩ : NearbyReq).lng = none) ∧
    nearbyHandler wDist ⟨none, some 1, none⟩ wDb =
      { status := 400, rows := [], queried := false } :=
  ⟨Or.inl rfl, nearby_missing_param wDist ⟨none, some 1, none⟩ wDb (Or.inl rfl)⟩

/-- Claim C6: a single-listing fetch whose identifier matches no stored
listing is answered 404 with no record in the body (an error signal, not a
500 and not an empty 200 record). -/
theorem get_listing_not_found (db : DB) (lid : Nat)
    (h : ∀ l ∈ db.listings, l.id ≠ lid) :
    getListingHandler db lid = { status := 404, body := none } := by
  have hf : db.listings.filter (fun l => l.id == lid) = [] := by
    rw [List.filter_eq_nil_iff]
    intro l hl
    simp [h l hl]
  unfold getListingHandler getListingRows
  rw [hf]
  rfl

theorem get_listing_not_found_witness :
    (∀ l ∈ wDb.listings, l.id ≠ 99) ∧
    getListingHandler wDb 99 = { status := 404, body := none } :=
  ⟨by decide, get_listing_not_found wDb 99 (by decide)⟩

/-- Claim C8: an admin-creation request with a valid admin key but with
host_id, title, price_kes, latitude, or longitude absent from the body is
answered 400 before any store access, and the store is unchanged. -/
theorem admin_create_missing_required_field (secret : String) (b : AdminBody) (db : DB)
    (h : b.host_id = .undef ∨ b.title = .undef ∨ b.price_kes = .undef ∨
      b.latitude = .undef ∨ b.longitude = .undef) :
    adminCreateHandler (some secret) (some secret) b db =
      { status := 400, db := db, created := none } := by
  have hcond : (!b.host_id.truthy || !b.title.truthy || !b.price_kes.truthy
      || !b.latitude.truthy || !b.longitude.truthy) = true := by
    rcases h with h | h | h | h | h <;> rw [h] <;> simp [JSVal.truthy]
  unfold adminCreateHandler
  rw [if_neg (by simp), if_pos hcond]

theorem admin_create_missing_required_field_witness :
    ({ wBody with price_kes := .undef }.host_id = .undef ∨
     { wBody with price_kes := .undef }.title = .undef ∨
     { wBody with price_kes := .undef }.price_kes = .undef ∨
     { wBody with price_kes := .undef }.latitude = .undef ∨
     { wBody with price_kes := .undef }.longitude = .undef) ∧
    adminCreateHandler (some "k") (some "k") { wBody with price_kes := .undef } wDb =
      { status := 400, db := wDb, created := none } :=
  ⟨Or.inr (Or.inr (Or.inl rfl)),
    admin_create_missing_required_field "k" { wBody with price_kes := .undef } wDb
      (Or.inr (Or.inr (Or.inl rfl)))⟩

/-- Claim C9: an admin-creation request with a valid admin key in which a
required field is present but falsy - price_kes 0, latitude 0, longitude 0,
an empty-string title or an empty-string host_id - is answered 400 with
nothing inserted, because the check tests JavaScript truthiness rather than
presence. -/
theorem admin_create_falsy_required_field (secret : String) (b : AdminBody) (db : DB)
    (h : b.price_kes = .num 0 ∨ b.latitude = .num 0 ∨ b.longitude = .num 0 ∨
      b.title = .str "" ∨ b.host_id = .str "") :
    adminCreateHandler (some secret) (some secret) b db =
      { status := 400, db := db, created := none } := by
  have hcond : (!b.host_id.truthy || !b.title.truthy || !b.price_kes.truthy
      || !b.latitude.truthy || !b.longitude.truthy) = true := by
    rcases h with h | h | h | h | h <;> rw [h] <;> simp [JSVal.truthy]
  unfold adminCreateHandler
  rw [if_neg (by simp), if_pos hcond]

theorem admin_create_falsy_required_field_witness :
    ({ wBody with price_kes := .num 0 }.price_kes = .num 0 ∨
     { wBody with price_kes := .num 0 }.latitude = .num 0 ∨
     { wBody with price_kes := .num 0 }.longitude = .num 0 ∨
     { wBody with price_kes := .num 0 }.title = .str "" ∨
     { wBody with price_kes := .num 0 }.host_id = .str "") ∧
    adminCreateHandler (some "k") (some "k") { wBody with price_kes := .num 0 } wDb =
      { status := 400, db := wDb, created := none } :=
  ⟨Or.inl rfl,
    admin_create_falsy_required_field "k" { wBody with price_kes := .num 0 } wDb (Or.inl rfl)⟩

/-- Claim C7: for every listing identifier the image-listing operation
answers 200 with exactly the image records belonging to that listing, sorted
by ascending id; for a listing with zero images it answers 200 with the
empty array, not an error. -/
theorem images_handler_spec (db : DB) (lid : Nat) :
    (imagesHandler db lid).status = 200 ∧
    (∀ r, r ∈ (imagesHandler db lid).rows ↔
      ∃ li ∈ db.listing_images, li.listing_id = lid ∧
        r = { id := li.id, image_url := li.image_url }) ∧
    List.Pairwise (fun a b : ImgRec => a.id ≤ b.id) (imagesHandler db lid).rows ∧
    ((∀ li ∈ db.listing_images, li.listing_id ≠ lid) → (imagesHandler db lid).rows = []) := by
  refine ⟨rfl, ?_, ?_, ?_⟩
  · intro r
    show r ∈ List.mergeSort _ imgLE ↔ _
    rw [List.mem_mergeSort]
    constructor
    · intro hr
      obtain ⟨li, hli, rfl⟩ := List.mem_map.1 hr
      rw [List.mem_filter] at hli
      exact ⟨li, hli.1, by simpa using hli.2, rfl⟩
    · rintro ⟨li, hmem, hid, rfl⟩
      exact List.mem_map_of_mem _ (List.mem_filter.2 ⟨hmem, by simp [hid]⟩)
  · exact (List.sorted_mergeSort imgLE_trans imgLE_total _).imp
      (fun h => by simpa [imgLE] using h)
  · intro hnone
    show List.mergeSort _ imgLE = []
    have hf : db.listing_images.filter (fun li => li.listing_id == lid) = [] := by
      rw [List.filter_eq_nil_iff]
      intro li hli
      simpa using hnone li hli
    rw [hf]
    simp

/-! ### Helper lemmas for the single-listing fetch -/

theorem getListingRows_images (db : DB) (lid : Nat) (d : ListingDetail)
    (hd : d ∈ getListingRows db lid) :
    d.images = (jsonAgg (listingImagesOf db lid)).getD [] := by
  unfold getListingRows at hd
  rw [List.mem_flatMap] at hd
  obtain ⟨l, hl, hd⟩ := hd
  rw [List.mem_filter] at hl
  obtain ⟨-, hid⟩ := hl
  obtain ⟨u, -, rfl⟩ := List.mem_map.1 hd
  simp only [beq_iff_eq] at hid
  rw [show ListingDetail.images _ = (jsonAgg (listingImagesOf db l.id)).getD [] from rfl, hid]

theorem mem_getListingRows (db : DB) (l : Listing) (u : User)
    (hl : l ∈ db.listings) (hu : u ∈ db.users) (huid : u.id = l.host_id) :
    ({ id := l.id, host_id := l.host_id, title := l.title, description := l.description
       price_kes := l.price_kes, location_name := l.location_name, is_active := l.is_active
       is_featured := l.is_featured, latitude := l.locX, longitude := l.locY
       host_name := u.name, host_phone := u.phone, host_whatsapp := u.whatsapp
       images := (jsonAgg (listingImagesOf db l.id)).getD [] } : ListingDetail) ∈
      getListingRows db l.id := by
  unfold getListingRows
  rw [List.mem_flatMap]
  refine ⟨l, List.mem_filter.2 ⟨hl, by simp⟩, ?_⟩
  exact List.mem_map_of_mem _ (List.mem_filter.2 ⟨hu, by simp [huid]⟩)

def wListingNoImg : Listing :=
  { id := 2, host_id := 7, title := "Town room", description := "central"
    price_kes := 1200, locX := 0, locY := 0, location_name := "Mombasa"
    is_active := true, is_featured := false }

def wDbNoImg : DB := { listings := [wListingNoImg], listing_images := [], users := [wUser] }

/-- Claim C10: for a listing with zero images the single-listing fetch
returns the coalesced empty array while the proximity search returns a null
images field - the two read paths differ in their empty-image
representation. -/
theorem empty_images_null_vs_empty_array
    (dist : GeoDist) (db : DB) (l : Listing) (lat lng : ℚ) (rd : Option ℚ) (u : User)
    (hl : l ∈ db.listings)
    (himg : ∀ li ∈ db.listing_images, li.listing_id ≠ l.id)
    (hact : l.is_active = true)
    (hdist : dist (l.locX, l.locY) (lng, lat) ≤ rd.getD 5000)
    (hu : u ∈ db.users) (huid : u.id = l.host_id) :
    ((nearbyRowOf dist lng lat db l).images = none ∧
      nearbyRowOf dist lng lat db l ∈ (nearbyHandler dist ⟨some lat, some lng, rd⟩ db).rows) ∧
    ((getListingHandler db l.id).status = 200 ∧
      ∃ d, (getListingHandler db l.id).body = some d ∧ d.images = []) := by
  have hfil : db.listing_images.filter (fun li => li.listing_id == l.id) = [] := by
    rw [List.filter_eq_nil_iff]
    intro li hli
    simpa using himg li hli
  have hempty : listingImagesOf db l.id = [] := by
    unfold listingImagesOf
    rw [hfil]
    rfl
  constructor
  · constructor
    · show jsonAgg (listingImagesOf db l.id) = none
      rw [hempty]
      rfl
    · exact mem_nearby_rows dist lat lng rd db l hl hact hdist
  · have hmem := mem_getListingRows db l u hl hu huid
    cases hrows : getListingRows db l.id with
    | nil =>
      rw [hrows] at hmem
      exact absurd hmem (List.not_mem_nil _)
    | cons r t =>
      have hr : r ∈ getListingRows db l.id := by
        rw [hrows]
        exact List.mem_cons_self r t
      have hrimg := getListingRows_images db l.id r hr
      rw [hempty] at hrimg
      refine ⟨?_, r, ?_, ?_⟩
      · show (getListingHandler db l.id).status = 200
        unfold getListingHandler
        rw [hrows]
      · show (getListingHandler db l.id).body = some r
        unfold getListingHandler
        rw [hrows]
      · rw [hrimg]
        rfl

theorem empty_images_null_vs_empty_array_witness :
    (wListingNoImg ∈ wDbNoImg.listings ∧
     (∀ li ∈ wDbNoImg.listing_images, li.listing_id ≠ wListingNoImg.id) ∧
     wListingNoImg.is_active = true ∧
     wDist (wListingNoImg.locX, wListingNoImg.locY) (0, 0) ≤ (none : Option ℚ).getD 5000 ∧
     wUser ∈ wDbNoImg.users ∧ wUser.id = wListingNoImg.host_id) ∧
    (((nearbyRowOf wDist 0 0 wDbNoImg wListingNoImg).images = none ∧
      nearbyRowOf wDist 0 0 wDbNoImg wListingNoImg ∈
        (nearbyHandler wDist ⟨some 0, some 0, none⟩ wDbNoImg).rows) ∧
     ((getListingHandler wDbNoImg wListingNoImg.id).status = 200 ∧
      ∃ d, (getListingHandler wDbNoImg wListingNoImg.id).body = some d ∧ d.images = [])) :=
  ⟨⟨by decide, by decide, by decide, by decide, by decide, by decide⟩,
   empty_images_null_vs_empty_array wDist wDbNoImg wListingNoImg 0 0 none wUser
     (by decide) (by decide) (by decide) (by decide) (by decide) (by decide)⟩

/-- Claim C3 (the code violates the round-trip): creating a listing through
the admin handler with latitude 1 and longitude 2 stores the point with X 2
and Y 1, but the single-listing fetch selects the stored X back as
`latitude` and the stored Y as `longitude`, so the subsequent fetch returns
latitude 2 and longitude 1 - the create-then-fetch round trip swaps the
coordinate pair instead of preserving it. -/
theorem create_then_fetch_swaps_coordinates :
    (adminCreateHandler (some "k") (some "k") wBody wDb).status = 201 ∧
    (getListingHandler (adminCreateHandler (some "k") (some "k") wBody wDb).db
        (freshId wDb)).body.map ListingDetail.latitude = some 2 ∧
    (getListingHandler (adminCreateHandler (some "k") (some "k") wBody wDb).db
        (freshId wDb)).body.map ListingDetail.longitude = some 1 := by
  decide

end MombasaStays
